import Mathlib

/-!
Verification of the Laptop Grading System (LGS) data-access module
(`src/modules/lgs.js`) and the CSV export route (`src/server.js`).

The JavaScript module is shallowly embedded: form-submitted values are
`Option String` (a urlencoded field is either absent or a string), raw
JavaScript values used by the normalization helpers are the inductive
`JSVal`, the relational store is the record `Db` holding the four tables
as lists, and every fallible operation returns `Except String Db`
mirroring the `throw new Error(...)` paths of the source.
-/

namespace LGS

/-- A raw JavaScript value as it can reach the normalization helpers. -/
inductive JSVal where
  | undef : JSVal
  | null : JSVal
  | bool : Bool → JSVal
  | num : Int → JSVal
  | str : String → JSVal
deriving DecidableEq, Repr

/-- JavaScript `String(value)` coercion restricted to `JSVal`. -/
def jsToString : JSVal → String
  | JSVal.undef => "undefined"
  | JSVal.null => "null"
  | JSVal.bool b => if b then "true" else "false"
  | JSVal.num n => toString n
  | JSVal.str s => s

/-- An absent form field is `undefined` in JavaScript. -/
def jsOfOpt : Option String → JSVal
  | none => JSVal.undef
  | some s => JSVal.str s

/-- The whitespace characters stripped by JavaScript `String.prototype.trim`
(ASCII fragment). -/
def isJsSpace (c : Char) : Bool :=
  c == ' ' || c == '\t' || c == '\n' || c == '\r' || c == '\x0b' || c == '\x0c'

/-- Trim on character lists: drop trailing then leading whitespace. -/
def trimChars (l : List Char) : List Char :=
  List.dropWhile isJsSpace ((List.dropWhile isJsSpace l.reverse).reverse)

/-- JavaScript `s.trim()`. -/
def jsTrim (s : String) : String :=
  String.mk (trimChars s.data)

/-- JavaScript `a || b` on strings: `a` unless it is empty. -/
def strOr (a b : String) : String :=
  if a = "" then b else a

/-- JavaScript `v || d` where `v` is a possibly-absent string field. -/
def strOrOpt (v : Option String) (d : String) : String :=
  strOr (v.getD "") d

/-- JavaScript `s.trim() || null`. -/
def optOfStr (s : String) : Option String :=
  if s = "" then none else some s

/-- JavaScript `parseInt(s, 10)`: skip leading whitespace, optional sign,
then the longest digit prefix; `none` models `NaN`. -/
def parseDigits (cs : List Char) : Option Nat :=
  let ds := cs.takeWhile Char.isDigit
  if ds = [] then none
  else some (ds.foldl (fun a c => a * 10 + (c.toNat - 48)) 0)

def parseIntJS (s : String) : Option Int :=
  match s.data.dropWhile isJsSpace with
  | '-' :: rest => (parseDigits rest).map (fun n => -(n : Int))
  | '+' :: rest => (parseDigits rest).map (fun n => (n : Int))
  | rest => (parseDigits rest).map (fun n => (n : Int))

/-- `normalizeInt(value, fallback)` from `lgs.js`: the parsed integer, or the
fallback when parsing yields `NaN`.  The fallback (and hence the result) may
be `null`, modeled as `none`. -/
def normalizeInt (value : JSVal) (fallback : Option Int) : Option Int :=
  match parseIntJS (jsToString value) with
  | some n => some n
  | none => fallback

/-- `normalizeBool(value)` from `lgs.js`:
`value === true || value === "true" || value === "on" || value === "1" || value === 1`. -/
def normalizeBool (value : JSVal) : Bool :=
  match value with
  | JSVal.bool b => b == true
  | JSVal.str s => s == "true" || s == "on" || s == "1"
  | JSVal.num n => n == 1
  | _ => false

/-- `normalizeTouchStatus(value)` from `lgs.js`. -/
def normalizeTouchStatus (value : Option String) : String :=
  let normalized := (jsTrim (value.getD "")).toUpper
  if normalized = "TOUCH" ∨ normalized = "NO_TOUCH" ∨ normalized = "BROKEN" then normalized
  else "NO_TOUCH"

/-- `buildPresetLabel({brand, model, cpu, ramGb, ssdGb})` from `lgs.js`. -/
def buildPresetLabel (brand model cpu : String) (ramGb ssdGb : Int) : String :=
  let parts := [brand, model, cpu].filter (fun s => s ≠ "")
  let memory := if ramGb ≠ 0 ∧ ssdGb ≠ 0 then toString ramGb ++ "/" ++ toString ssdGb else ""
  jsTrim (String.intercalate " " (if memory = "" then parts else parts ++ [memory]))

/- ===== Data model (the four tables of `lgs.js`) ===== -/

structure User where
  id : Int
  userName : String
  passwordHash : String
  role : String
  active : Bool
deriving DecidableEq, Repr

structure ModelPreset where
  id : Int
  deviceType : String
  brand : String
  model : String
  presetLabel : String
  defaultCpu : String
  defaultRamGb : Int
  defaultSsdGb : Int
  touchDefault : String
  defaultObservations : Option String
  createdByUserId : Int
  active : Bool
deriving DecidableEq, Repr

structure Project where
  id : Int
  projectName : String
  deviceType : String
  status : String
  createdByUserId : Int
deriving DecidableEq, Repr

structure LaptopGrade where
  projectId : Int
  serialNumber : String
  brand : String
  model : String
  cpu : String
  ramGb : Int
  ssdGb : Int
  touchStatus : String
  touchscreen : Bool
  batteryHealthPercent : Option Int
  observations : String
  presetId : Option Int
  createdByUserId : Int
deriving DecidableEq, Repr

/-- The relational store.  The `next*Id` counters model autoincrement keys. -/
structure Db where
  users : List User
  presets : List ModelPreset
  projects : List Project
  grades : List LaptopGrade
  nextUserId : Int
  nextPresetId : Int
  nextProjectId : Int
deriving DecidableEq, Repr

/-- The session user `{id, userName, role}` — the only shape `authenticate`
ever returns; there is no password-hash field. -/
structure AuthUser where
  id : Int
  userName : String
  role : String
deriving DecidableEq, Repr

/- ===== Authentication ===== -/

/-- `authenticate(userName, password)` from `lgs.js`.  The bcrypt comparison
is an external primitive, passed in as `compare password storedHash`. -/
def authenticate (compare : String → String → Bool) (userName password : String)
    (users : List User) : Option AuthUser :=
  match users.find? (fun u => u.userName == userName) with
  | none => none
  | some user =>
    if !user.active then none
    else if !(compare password user.passwordHash) then none
    else some { id := user.id, userName := user.userName, role := user.role }

/- ===== Users ===== -/

/-- `createUser({userName, password, role})` from `lgs.js`; `hash` models
`bcrypt.hash`. -/
def createUser (hash : String → String) (userName password role : String) (db : Db) : Db :=
  { db with
    users := db.users ++ [{
      id := db.nextUserId
      userName := userName
      passwordHash := hash password
      role := if role = "ADMIN" then "ADMIN" else "TECH"
      active := true }]
    nextUserId := db.nextUserId + 1 }

/-- `setUserActive(userId, active)` from `lgs.js`. -/
def setUserActive (userId : Int) (active : Bool) (db : Db) : Db :=
  { db with users := db.users.map (fun u => if u.id == userId then { u with active := active } else u) }

/-- `setUserRole(userId, role)` from `lgs.js`. -/
def setUserRole (userId : Int) (role : String) (db : Db) : Db :=
  { db with users := db.users.map (fun u =>
      if u.id == userId then { u with role := if role = "ADMIN" then "ADMIN" else "TECH" } else u) }

/- ===== Presets ===== -/

/-- The fields of the add-preset form. -/
structure PresetBody where
  deviceType : Option String := none
  brand : Option String := none
  brandOther : Option String := none
  model : Option String := none
  presetLabel : Option String := none
  defaultCpu : Option String := none
  defaultRamGb : Option String := none
  defaultRamGbOther : Option String := none
  defaultSsdGb : Option String := none
  touchDefault : Option String := none
  defaultObservations : Option String := none
deriving DecidableEq, Repr

/-- `createPreset(user, body)` from `lgs.js`. -/
def createPreset (user : AuthUser) (body : PresetBody) (db : Db) : Except String Db :=
  let rawBrand := if body.brand = some "OTHER" then body.brandOther else body.brand
  let brand := jsTrim (rawBrand.getD "")
  if brand = "" then Except.error "Brand is required." else
  let model := jsTrim (body.model.getD "")
  if model = "" then Except.error "Model is required." else
  let rawRam := if body.defaultRamGb = some "OTHER" then body.defaultRamGbOther else body.defaultRamGb
  let ramGb := (normalizeInt (jsOfOpt rawRam) (some 0)).getD 0
  if ramGb = 0 then Except.error "Default RAM is required." else
  let ssdGb := (normalizeInt (jsOfOpt body.defaultSsdGb) (some 0)).getD 0
  if ssdGb = 0 then Except.error "Default SSD is required." else
  let defaultCpu := jsTrim (body.defaultCpu.getD "")
  if defaultCpu = "" then Except.error "Default CPU is required." else
  let presetLabel := strOr (jsTrim (body.presetLabel.getD ""))
    (brand ++ " " ++ model ++ " " ++ toString ramGb ++ "/" ++ toString ssdGb)
  Except.ok { db with
    presets := db.presets ++ [{
      id := db.nextPresetId
      deviceType := if body.deviceType = some "DESKTOP" then "DESKTOP" else "LAPTOP"
      brand := brand
      model := model
      presetLabel := presetLabel
      defaultCpu := defaultCpu
      defaultRamGb := ramGb
      defaultSsdGb := ssdGb
      touchDefault := normalizeTouchStatus body.touchDefault
      defaultObservations := optOfStr (jsTrim (body.defaultObservations.getD ""))
      createdByUserId := user.id
      active := true }]
    nextPresetId := db.nextPresetId + 1 }

/-- The fields of the create-preset-from-unit form. -/
structure UnitBody where
  deviceType : Option String := none
  brand : Option String := none
  model : Option String := none
  cpu : Option String := none
  ramGb : Option String := none
  ssdGb : Option String := none
  touchStatus : Option String := none
  observations : Option String := none
deriving DecidableEq, Repr

/-- `createPresetFromUnit(user, body)` from `lgs.js`. -/
def createPresetFromUnit (user : AuthUser) (body : UnitBody) (db : Db) :
    Except String (Db × ModelPreset) :=
  let deviceType := if body.deviceType = some "DESKTOP" then "DESKTOP" else "LAPTOP"
  let brand := jsTrim (body.brand.getD "")
  let model := jsTrim (body.model.getD "")
  let cpu := jsTrim (body.cpu.getD "")
  let ramGb := (normalizeInt (jsOfOpt body.ramGb) (some 0)).getD 0
  let ssdGb := (normalizeInt (jsOfOpt body.ssdGb) (some 0)).getD 0
  let touchDefault := normalizeTouchStatus body.touchStatus
  let defaultObservations := optOfStr (jsTrim (body.observations.getD ""))
  if brand = "" ∨ model = "" ∨ cpu = "" ∨ ramGb = 0 ∨ ssdGb = 0 then
    Except.error "Missing required fields to create preset."
  else
    let preset : ModelPreset := {
      id := db.nextPresetId
      deviceType := deviceType
      brand := brand
      model := model
      presetLabel := strOr (buildPresetLabel brand model cpu ramGb ssdGb) (brand ++ " " ++ model)
      defaultCpu := cpu
      defaultRamGb := ramGb
      defaultSsdGb := ssdGb
      touchDefault := touchDefault
      defaultObservations := defaultObservations
      createdByUserId := user.id
      active := true }
    Except.ok ({ db with presets := db.presets ++ [preset], nextPresetId := db.nextPresetId + 1 }, preset)

/-- `disablePreset(id)` from `lgs.js`. -/
def disablePreset (id : Int) (db : Db) : Db :=
  { db with presets := db.presets.map (fun p => if p.id == id then { p with active := false } else p) }

/-- `setPresetActive(id, active)` from `lgs.js`. -/
def setPresetActive (id : Int) (active : Bool) (db : Db) : Db :=
  { db with presets := db.presets.map (fun p => if p.id == id then { p with active := active } else p) }

/- ===== Projects ===== -/

/-- `createProject(user, body)` from `lgs.js`. -/
def createProject (user : AuthUser) (projectName deviceType : Option String) (db : Db) :
    Except String Db :=
  let name := jsTrim (projectName.getD "")
  if name = "" then Except.error "Project name is required."
  else Except.ok { db with
    projects := db.projects ++ [{
      id := db.nextProjectId
      projectName := name
      deviceType := if deviceType = some "DESKTOP" then "DESKTOP" else "LAPTOP"
      status := "OPEN"
      createdByUserId := user.id }]
    nextProjectId := db.nextProjectId + 1 }

/-- `getProjectById(id)` from `lgs.js`. -/
def getProjectById (id : Int) (db : Db) : Option Project :=
  db.projects.find? (fun p => p.id == id)

/-- `setProjectStatus(id, status)` from `lgs.js`: exactly `"CLOSED"` closes,
anything else forces `"OPEN"`. -/
def setProjectStatus (id : Int) (status : String) (db : Db) : Db :=
  let nextStatus := if status = "CLOSED" then "CLOSED" else "OPEN"
  { db with projects := db.projects.map (fun p =>
      if p.id == id then { p with status := nextStatus } else p) }

/- ===== Grades ===== -/

/-- The fields of the add-grade form. -/
structure GradeBody where
  presetId : Option String := none
  serialNumber : Option String := none
  brand : Option String := none
  model : Option String := none
  cpu : Option String := none
  ramGb : Option String := none
  ssdGb : Option String := none
  touchStatus : Option String := none
  observations : Option String := none
  batteryHealthPercent : Option String := none
deriving DecidableEq, Repr

/-- Preset resolution in `createGrade`: the submitted id must parse, be
truthy, and name a currently `active` preset. -/
def resolvePreset (body : GradeBody) (db : Db) : Option ModelPreset :=
  match normalizeInt (jsOfOpt body.presetId) none with
  | some n => if n ≠ 0 then db.presets.find? (fun p => p.id == n && p.active) else none
  | none => none

/-- `preset ? preset.brand : ""` -/
def presetBrandD : Option ModelPreset → String
  | some pr => pr.brand
  | none => ""

/-- `preset ? preset.model : ""` -/
def presetModelD : Option ModelPreset → String
  | some pr => pr.model
  | none => ""

/-- `preset ? preset.defaultCpu : ""` -/
def presetCpuD : Option ModelPreset → String
  | some pr => pr.defaultCpu
  | none => ""

/-- `preset ? preset.defaultRamGb : 0` -/
def presetRamD : Option ModelPreset → Int
  | some pr => pr.defaultRamGb
  | none => 0

/-- `preset ? preset.defaultSsdGb : 0` -/
def presetSsdD : Option ModelPreset → Int
  | some pr => pr.defaultSsdGb
  | none => 0

/-- `preset ? preset.touchDefault : "NO_TOUCH"` -/
def presetTouchD : Option ModelPreset → String
  | some pr => pr.touchDefault
  | none => "NO_TOUCH"

/-- `preset ? (preset.defaultObservations || "") : ""` -/
def presetObsD : Option ModelPreset → String
  | some pr => pr.defaultObservations.getD ""
  | none => ""

/-- `((body.serialNumber || "").trim()` -/
def serialOf (body : GradeBody) : String :=
  jsTrim (body.serialNumber.getD "")

/-- `((body.brand || "").trim() || (preset ? preset.brand : "")).trim()` -/
def brandOf (body : GradeBody) (preset : Option ModelPreset) : String :=
  jsTrim (strOr (jsTrim (body.brand.getD "")) (presetBrandD preset))

def modelOf (body : GradeBody) (preset : Option ModelPreset) : String :=
  jsTrim (strOr (jsTrim (body.model.getD "")) (presetModelD preset))

def cpuOf (body : GradeBody) (preset : Option ModelPreset) : String :=
  jsTrim (strOr (jsTrim (body.cpu.getD "")) (presetCpuD preset))

/-- `normalizeInt(body.ramGb, preset ? preset.defaultRamGb : 0)` -/
def ramOf (body : GradeBody) (preset : Option ModelPreset) : Int :=
  (normalizeInt (jsOfOpt body.ramGb) (some (presetRamD preset))).getD 0

def ssdOf (body : GradeBody) (preset : Option ModelPreset) : Int :=
  (normalizeInt (jsOfOpt body.ssdGb) (some (presetSsdD preset))).getD 0

/-- `normalizeTouchStatus(body.touchStatus || (preset ? preset.touchDefault : "NO_TOUCH"))` -/
def touchOf (body : GradeBody) (preset : Option ModelPreset) : String :=
  normalizeTouchStatus (some (strOrOpt body.touchStatus (presetTouchD preset)))

/-- `((body.observations || "").trim() || (preset ? (preset.defaultObservations || "") : "")).trim()` -/
def obsOf (body : GradeBody) (preset : Option ModelPreset) : String :=
  jsTrim (strOr (jsTrim (body.observations.getD "")) (presetObsD preset))

/-- `(body.batteryHealthPercent || "").toString().trim()` -/
def rawBatteryOf (body : GradeBody) : String :=
  jsTrim (body.batteryHealthPercent.getD "")

/-- The `battery` local of `createGrade`: `null` when no value was supplied,
otherwise `normalizeInt(rawBattery, -1)`. -/
def batteryOf (body : GradeBody) : Option Int :=
  if rawBatteryOf body = "" then none
  else normalizeInt (JSVal.str (rawBatteryOf body)) (some (-1))

/-- The range check `battery < 0 || battery > 100`, applied only when a
battery value was supplied. -/
def batteryBad : Option Int → Bool
  | none => false
  | some b => b < 0 || b > 100

/-- `createGrade(user, body, project)` from `lgs.js`, lines 394-459. -/
def createGrade (user : AuthUser) (body : GradeBody) (project : Option Project) (db : Db) :
    Except String Db :=
  match project with
  | none => Except.error "Select a project first."
  | some project =>
    if project.status = "OPEN" then
      let preset := resolvePreset body db
      let serialNumber := serialOf body
      if serialNumber = "" then Except.error "Serial Number is required."
      else
        match db.grades.find? (fun g => g.projectId == project.id && g.serialNumber == serialNumber) with
        | some _ => Except.error "Serial already exists in this project."
        | none =>
          let brand := brandOf body preset
          let model := modelOf body preset
          let cpu := cpuOf body preset
          let ramGb := ramOf body preset
          let ssdGb := ssdOf body preset
          let touchStatus := touchOf body preset
          let observations := obsOf body preset
          if brand = "" ∨ model = "" ∨ cpu = "" ∨ ramGb = 0 ∨ ssdGb = 0 then
            Except.error "Brand, model, CPU, RAM and SSD are required."
          else if observations = "" then
            Except.error "Observations are required."
          else
            let battery := batteryOf body
            if batteryBad battery then
              Except.error "Battery Health must be between 0 and 100."
            else
              Except.ok { db with
                grades := db.grades ++ [{
                  projectId := project.id
                  serialNumber := serialNumber
                  brand := brand
                  model := model
                  cpu := cpu
                  ramGb := ramGb
                  ssdGb := ssdGb
                  touchStatus := touchStatus
                  touchscreen := touchStatus == "TOUCH"
                  batteryHealthPercent := battery
                  observations := observations
                  presetId := (preset.map (fun p => p.id))
                  createdByUserId := user.id }] }
    else Except.error "Selected project is closed."

/-- The exact record `createGrade` hands to `LaptopGrade.create` once all
checks have passed. -/
def mkGrade (user : AuthUser) (body : GradeBody) (project : Project) (db : Db) : LaptopGrade :=
  { projectId := project.id
    serialNumber := serialOf body
    brand := brandOf body (resolvePreset body db)
    model := modelOf body (resolvePreset body db)
    cpu := cpuOf body (resolvePreset body db)
    ramGb := ramOf body (resolvePreset body db)
    ssdGb := ssdOf body (resolvePreset body db)
    touchStatus := touchOf body (resolvePreset body db)
    touchscreen := touchOf body (resolvePreset body db) == "TOUCH"
    batteryHealthPercent := batteryOf body
    observations := obsOf body (resolvePreset body db)
    presetId := Option.map (fun p => p.id) (resolvePreset body db)
    createdByUserId := user.id }

/-- The request boundary of the grade-creation route: a thrown domain error is
caught and re-rendered, persisting nothing. -/
def runCreateGrade (user : AuthUser) (body : GradeBody) (project : Option Project) (db : Db) : Db :=
  match createGrade user body project db with
  | Except.ok db' => db'
  | Except.error _ => db

/- ===== The store-mutating route surface (`src/server.js`) =====

Every HTTP route of the application that can change the store, with the
arguments the route actually passes.  In particular the only caller of
`setProjectStatus` is `GET /projects/:id/close`, which always passes the
literal `"CLOSED"`; no route passes any other status. -/

inductive Action where
  | addUser : (String → String) → String → String → String → Action
  | enableUser : Int → Bool → Action
  | changeRole : Int → String → Action
  | addPreset : AuthUser → PresetBody → Action
  | addPresetFromUnit : AuthUser → UnitBody → Action
  | deactivatePreset : Int → Action
  | activatePreset : Int → Bool → Action
  | addProject : AuthUser → Option String → Option String → Action
  | closeProject : Int → Action
  | addGrade : AuthUser → GradeBody → Option Int → Action

/-- Discharge an `Except` at the request boundary: route handlers catch
domain errors and leave the store untouched. -/
def exceptD (r : Except String Db) (db : Db) : Db :=
  match r with
  | Except.ok db' => db'
  | Except.error _ => db

/-- The effect of one route invocation on the store. -/
def applyAction (a : Action) (db : Db) : Db :=
  match a with
  | Action.addUser hash userName password role =>
    if jsTrim userName = "" ∨ password = "" then db
    else createUser hash (jsTrim userName) password role db
  | Action.enableUser id active => setUserActive id active db
  | Action.changeRole id role => setUserRole id role db
  | Action.addPreset u body => exceptD (createPreset u body db) db
  | Action.addPresetFromUnit u body =>
    match createPresetFromUnit u body db with
    | Except.ok (db', _) => db'
    | Except.error _ => db
  | Action.deactivatePreset id => disablePreset id db
  | Action.activatePreset id active => setPresetActive id active db
  | Action.addProject u name deviceType => exceptD (createProject u name deviceType db) db
  | Action.closeProject id => setProjectStatus id "CLOSED" db
  | Action.addGrade u body currentProjectId =>
    match currentProjectId with
    | none => db
    | some pid =>
      match getProjectById pid db with
      | none => db
      | some project => runCreateGrade u body (some project) db

/-- A whole session: route invocations applied in order. -/
def applyActions (acts : List Action) (db : Db) : Db :=
  acts.foldl (fun d a => applyAction a d) db

/- ===== CSV export (`src/server.js`, route `GET /projects/:id/export.csv`) ===== -/

/-- Double every double-quote character: `String(value).replace(/"/g, '""')`. -/
def escapeQuotes : List Char → List Char
  | [] => []
  | c :: cs => if c = '"' then '"' :: '"' :: escapeQuotes cs else c :: escapeQuotes cs

/-- One CSV field: `"${String(value ?? "").replace(/"/g, '""')}"`. -/
def escapeCsvField (s : String) : String :=
  "\"" ++ String.mk (escapeQuotes s.data) ++ "\""

/-- One CSV row: every field escaped, joined with commas. -/
def csvJoinRow (vals : List String) : String :=
  String.intercalate "," (vals.map escapeCsvField)

/-- The header row of the export. -/
def exportHeader : List String :=
  ["SERIAL", "BRAND", "MODEL", "CPU", "SSD", "MEMORY", "OBSERVATIONS", "TOUCHSCREEN",
   "TECHNICIAN", "DATE"]

/-- The ten values of a grade's export row, in the order the route emits
them; `userName` is the joined creator's name and `createdAtIso` the
ISO-8601 rendering of the creation timestamp. -/
def exportRowValues (g : LaptopGrade) (userName createdAtIso : String) : List String :=
  [g.serialNumber, g.brand, g.model, g.cpu, toString g.ssdGb, toString g.ramGb,
   g.observations, g.touchStatus, userName, createdAtIso]

/-- One exported CSV line for a grade. -/
def exportCsvLine (g : LaptopGrade) (userName createdAtIso : String) : String :=
  csvJoinRow (exportRowValues g userName createdAtIso)

/-- Modelled from the spec: the standard CSV un-quoting rule used to read a
quoted field back ("parsing that field back with a standard CSV rule").
A doubled quote denotes one literal quote; a lone quote inside the body is
malformed. -/
def unescapeQuotes : List Char → Option (List Char)
  | [] => some []
  | c :: cs =>
    if c = '"' then
      match cs with
      | '"' :: cs' => (unescapeQuotes cs').map (fun l => '"' :: l)
      | _ => none
    else (unescapeQuotes cs).map (fun l => c :: l)

/-- Modelled from the spec: parse one quoted CSV field: strip the surrounding
quotes and collapse doubled quotes. -/
def csvParseField (s : String) : Option String :=
  match s.data with
  | '"' :: rest =>
    if rest ≠ [] ∧ rest.getLast? = some '"' then
      (unescapeQuotes rest.dropLast).map String.mk
    else none
  | _ => none

/- ===== Concrete fixtures used by witnesses and counterexamples ===== -/

def c1User : AuthUser := { id := 1, userName := "tech", role := "TECH" }

def c1Project : Project :=
  { id := 1, projectName := "P1", deviceType := "LAPTOP", status := "OPEN", createdByUserId := 1 }

def c1Grade : LaptopGrade :=
  { projectId := 1, serialNumber := "SN1", brand := "Dell", model := "7420", cpu := "i5",
    ramGb := 8, ssdGb := 256, touchStatus := "NO_TOUCH", touchscreen := false,
    batteryHealthPercent := none, observations := "ok", presetId := none, createdByUserId := 1 }

def c1Db : Db :=
  { users := [], presets := [], projects := [c1Project], grades := [c1Grade],
    nextUserId := 2, nextPresetId := 1, nextProjectId := 2 }

def c1Body : GradeBody :=
  { serialNumber := some "SN1", brand := some "Dell", model := some "7420", cpu := some "i5",
    ramGb := some "8", ssdGb := some "256", observations := some "ok" }

def c2User : AuthUser := { id := 1, userName := "tech", role := "TECH" }

def c2Project : Project :=
  { id := 1, projectName := "P2", deviceType := "LAPTOP", status := "OPEN", createdByUserId := 1 }

def c2Preset : ModelPreset :=
  { id := 1, deviceType := "LAPTOP", brand := "Dell", model := "7420", presetLabel := "Dell 7420",
    defaultCpu := "i5", defaultRamGb := 8, defaultSsdGb := 256, touchDefault := "NO_TOUCH",
    defaultObservations := some "ok", createdByUserId := 1, active := true }

def c2Db : Db :=
  { users := [], presets := [c2Preset], projects := [c2Project], grades := [],
    nextUserId := 2, nextPresetId := 2, nextProjectId := 2 }

def c2Body : GradeBody :=
  { presetId := some "1", serialNumber := some "SN1", ramGb := some "0" }

def c2wProject : Project :=
  { id := 3, projectName := "P2w", deviceType := "LAPTOP", status := "OPEN", createdByUserId := 1 }

def c2wDb : Db :=
  { users := [], presets := [], projects := [c2wProject], grades := [],
    nextUserId := 2, nextPresetId := 1, nextProjectId := 4 }

def c2wBody : GradeBody := { serialNumber := some "S2" }

def c3User : AuthUser := { id := 1, userName := "tech", role := "TECH" }

def c3Project : Project :=
  { id := 1, projectName := "P3", deviceType := "LAPTOP", status := "OPEN", createdByUserId := 1 }

def c3Preset : ModelPreset :=
  { id := 7, deviceType := "LAPTOP", brand := "Dell", model := "7420", presetLabel := "Dell 7420",
    defaultCpu := "i5", defaultRamGb := 8, defaultSsdGb := 256, touchDefault := "NO_TOUCH",
    defaultObservations := some "ok", createdByUserId := 1, active := false }

def c3Db : Db :=
  { users := [], presets := [c3Preset], projects := [c3Project], grades := [],
    nextUserId := 2, nextPresetId := 8, nextProjectId := 2 }

def c3Body : GradeBody :=
  { presetId := some "7", serialNumber := some "SN3", brand := some "HP", model := some "X360",
    cpu := some "i3", ramGb := some "4", ssdGb := some "128", observations := some "fine" }

def c4User : AuthUser := { id := 1, userName := "tech", role := "TECH" }

def c4Project : Project :=
  { id := 1, projectName := "P4", deviceType := "LAPTOP", status := "OPEN", createdByUserId := 1 }

def c4Preset : ModelPreset :=
  { id := 1, deviceType := "LAPTOP", brand := "Dell", model := "7420", presetLabel := "Dell 7420",
    defaultCpu := "i5", defaultRamGb := 8, defaultSsdGb := 256, touchDefault := "NO_TOUCH",
    defaultObservations := some "ok", createdByUserId := 1, active := true }

def c4Db : Db :=
  { users := [], presets := [c4Preset], projects := [c4Project], grades := [],
    nextUserId := 2, nextPresetId := 2, nextProjectId := 2 }

def c4Body : GradeBody :=
  { presetId := some "1", serialNumber := some "SN4", batteryHealthPercent := some "85" }

def c6User : AuthUser := { id := 1, userName := "tech", role := "TECH" }

def c6Project : Project :=
  { id := 1, projectName := "P6", deviceType := "LAPTOP", status := "OPEN", createdByUserId := 1 }

def c6Closed : Project :=
  { id := 1, projectName := "P6", deviceType := "LAPTOP", status := "CLOSED", createdByUserId := 1 }

def c6Db : Db :=
  { users := [], presets := [], projects := [c6Project], grades := [],
    nextUserId := 2, nextPresetId := 1, nextProjectId := 2 }

def c6Body : GradeBody := { serialNumber := some "SN6" }

def c8cmp : String → String → Bool := fun password hash => password == hash

def c8User : User :=
  { id := 1, userName := "alice", passwordHash := "pw1", role := "ADMIN", active := true }

def c8Users : List User := [c8User]

def c10U : User := { id := 1, userName := "bob", passwordHash := "h", role := "TECH", active := true }

def c10Db : Db :=
  { users := [c10U], presets := [], projects := [], grades := [],
    nextUserId := 2, nextPresetId := 1, nextProjectId := 1 }

/- ===================================================================
   Lemmas and theorems
   =================================================================== -/

theorem dropWhile_head_false {α : Type} (p : α → Bool) :
    ∀ (l : List α) {c : α} {t : List α}, List.dropWhile p l = c :: t → p c = false := by
  intro l
  induction l with
  | nil => intro c t h; simp [List.dropWhile] at h
  | cons a l ih =>
    intro c t h
    by_cases ha : p a
    · rw [List.dropWhile_cons_of_pos ha] at h
      exact ih h
    · rw [List.dropWhile_cons_of_neg ha] at h
      cases h
      exact Bool.eq_false_iff.mpr ha

theorem dropWhile_eq_self {α : Type} (p : α → Bool) (l : List α)
    (h : ∀ c, l.head? = some c → p c = false) : List.dropWhile p l = l := by
  cases l with
  | nil => rfl
  | cons a t =>
    have := h a rfl
    rw [List.dropWhile_cons_of_neg (by simp [this])]

theorem dropWhile_idem {α : Type} (p : α → Bool) (l : List α) :
    List.dropWhile p (List.dropWhile p l) = List.dropWhile p l := by
  cases h : List.dropWhile p l with
  | nil => rfl
  | cons c t =>
    have hc := dropWhile_head_false p l h
    rw [List.dropWhile_cons_of_neg (by simp [hc])]

theorem getLast?_dropWhile {α : Type} (p : α → Bool) :
    ∀ (l : List α), List.dropWhile p l ≠ [] → (List.dropWhile p l).getLast? = l.getLast? := by
  intro l
  induction l with
  | nil => intro h; simp [List.dropWhile] at h
  | cons a l ih =>
    intro h
    by_cases ha : p a
    · rw [List.dropWhile_cons_of_pos ha] at h ⊢
      have hl : l ≠ [] := by
        intro he; rw [he] at h; simp [List.dropWhile] at h
      rw [ih h]
      cases l with
      | nil => exact absurd rfl hl
      | cons b t => simp
    · rw [List.dropWhile_cons_of_neg ha]

theorem trimChars_idem (l : List Char) : trimChars (trimChars l) = trimChars l := by
  unfold trimChars
  set M := (List.dropWhile isJsSpace l.reverse).reverse with hM
  have hstep : List.dropWhile isJsSpace (List.dropWhile isJsSpace M).reverse =
      (List.dropWhile isJsSpace M).reverse := by
    apply dropWhile_eq_self
    intro c hc
    rw [List.head?_reverse] at hc
    have hne : List.dropWhile isJsSpace M ≠ [] := by
      intro he; rw [he] at hc; simp at hc
    rw [getLast?_dropWhile _ _ hne] at hc
    rw [hM, List.getLast?_reverse] at hc
    have hne2 : List.dropWhile isJsSpace l.reverse ≠ [] := by
      intro he; rw [he] at hc; simp at hc
    cases hh : List.dropWhile isJsSpace l.reverse with
    | nil => exact absurd hh hne2
    | cons d t =>
      rw [hh] at hc
      simp at hc
      rw [← hc]
      exact dropWhile_head_false _ _ hh
  rw [hstep, List.reverse_reverse, dropWhile_idem]

theorem jsTrim_idem (s : String) : jsTrim (jsTrim s) = jsTrim s := by
  show String.mk (trimChars (String.mk (trimChars s.data)).data) = String.mk (trimChars s.data)
  rw [show (String.mk (trimChars s.data)).data = trimChars s.data from rfl, trimChars_idem]

theorem strOr_empty_right (a : String) : strOr a "" = a := by
  unfold strOr
  split
  · simp [*]
  · rfl

theorem strOr_of_ne (a b : String) (h : a ≠ "") : strOr a b = a := by
  simp [strOr, h]

theorem strOr_of_empty (b : String) : strOr "" b = b := rfl

/-- Claim C9: `normalizeBool` returns `true` for exactly the inputs
`{true, "true", "on", "1", 1}` and `false` for every other input, in
particular `undefined`, the empty string, the number `0`, and `"off"`. -/
theorem normalizeBool_spec :
    (∀ v : JSVal, normalizeBool v = true ↔
      (v = JSVal.bool true ∨ v = JSVal.str "true" ∨ v = JSVal.str "on" ∨
       v = JSVal.str "1" ∨ v = JSVal.num 1))
    ∧ normalizeBool JSVal.undef = false
    ∧ normalizeBool JSVal.null = false
    ∧ normalizeBool (JSVal.str "") = false
    ∧ normalizeBool (JSVal.num 0) = false
    ∧ normalizeBool (JSVal.str "off") = false := by
  refine ⟨?_, rfl, rfl, by decide, by decide, by decide⟩
  intro v
  cases v with
  | undef => simp [normalizeBool]
  | null => simp [normalizeBool]
  | bool b => cases b <;> simp [normalizeBool]
  | num n => simp [normalizeBool]
  | str s => simp [normalizeBool, or_assoc]

theorem unescape_escape (l : List Char) : unescapeQuotes (escapeQuotes l) = some l := by
  induction l with
  | nil => rfl
  | cons c t ih =>
    by_cases hc : c = '"'
    · subst hc
      have he : escapeQuotes ('"' :: t) = '"' :: '"' :: escapeQuotes t := by
        simp [escapeQuotes]
      rw [he]
      show Option.map (fun l => '"' :: l) (unescapeQuotes (escapeQuotes t)) = some ('"' :: t)
      rw [ih]
      rfl
    · have he : escapeQuotes (c :: t) = c :: escapeQuotes t := by
        simp [escapeQuotes, hc]
      rw [he]
      unfold unescapeQuotes
      rw [if_neg hc, ih]
      rfl

theorem csvParse_escape (s : String) : csvParseField (escapeCsvField s) = some s := by
  have hdata : (escapeCsvField s).data = '"' :: (escapeQuotes s.data ++ ['"']) := by
    simp [escapeCsvField, String.data_append]
  unfold csvParseField
  rw [hdata]
  have hcond : escapeQuotes s.data ++ ['"'] ≠ [] ∧
      (escapeQuotes s.data ++ ['"']).getLast? = some '"' := by
    constructor
    · simp
    · exact List.getLast?_concat _
  show (if escapeQuotes s.data ++ ['"'] ≠ [] ∧ (escapeQuotes s.data ++ ['"']).getLast? = some '"'
        then Option.map String.mk (unescapeQuotes (escapeQuotes s.data ++ ['"']).dropLast)
        else none) = some s
  rw [if_pos hcond, List.dropLast_concat, unescape_escape]
  rfl

/-- Claim C7: CSV export emits each grade row in the fixed 10-column order
SERIAL, BRAND, MODEL, CPU, SSD, MEMORY, OBSERVATIONS, TOUCHSCREEN,
TECHNICIAN, DATE, with every field double-quoted and internal quotes
doubled, and parsing an exported field back with the standard CSV quoting
rule recovers the original string — in particular for observations
containing a double quote. -/
theorem csv_export_roundtrip :
    (∀ (g : LaptopGrade) (userName createdAtIso : String),
      exportCsvLine g userName createdAtIso =
        String.intercalate ","
          [escapeCsvField g.serialNumber, escapeCsvField g.brand, escapeCsvField g.model,
           escapeCsvField g.cpu, escapeCsvField (toString g.ssdGb),
           escapeCsvField (toString g.ramGb), escapeCsvField g.observations,
           escapeCsvField g.touchStatus, escapeCsvField userName, escapeCsvField createdAtIso])
    ∧ csvJoinRow exportHeader =
        "\"SERIAL\",\"BRAND\",\"MODEL\",\"CPU\",\"SSD\",\"MEMORY\",\"OBSERVATIONS\",\"TOUCHSCREEN\",\"TECHNICIAN\",\"DATE\""
    ∧ (∀ s : String, csvParseField (escapeCsvField s) = some s) := by
  refine ⟨?_, by rfl, csvParse_escape⟩
  intro g userName createdAtIso
  rfl

/-- Claim C8: `authenticate` returns no user when the username is not found,
when the user's `active` flag is false, or when the password comparison
fails; on success it returns exactly `{id, userName, role}` of the stored
user — the result type `AuthUser` has no password-hash field. -/
theorem authenticate_spec (compare : String → String → Bool) (userName password : String)
    (users : List User) :
    ((∀ u ∈ users, u.userName ≠ userName) →
        authenticate compare userName password users = none)
    ∧ (∀ u, users.find? (fun x => x.userName == userName) = some u →
        ((u.active = false → authenticate compare userName password users = none)
         ∧ (compare password u.passwordHash = false →
              authenticate compare userName password users = none)
         ∧ (u.active = true → compare password u.passwordHash = true →
              authenticate compare userName password users =
                some { id := u.id, userName := u.userName, role := u.role }))) := by
  constructor
  · intro h
    have hnone : users.find? (fun x => x.userName == userName) = none := by
      rw [List.find?_eq_none]
      intro x hx
      simp [h x hx]
    simp [authenticate, hnone]
  · intro u hu
    refine ⟨?_, ?_, ?_⟩
    · intro hact
      simp [authenticate, hu, hact]
    · intro hcmp
      by_cases hact : u.active
      · simp [authenticate, hu, hact, hcmp]
      · simp [authenticate, hu, hact]
    · intro hact hcmp
      simp [authenticate, hu, hact, hcmp]

/-- Claim C10 (implicit): `createUser` and `setUserRole` store the role
`"ADMIN"` exactly when the supplied role is the string `"ADMIN"` and
`"TECH"` otherwise, so every user record written by these operations has a
role in `{TECH, ADMIN}`. -/
theorem user_role_invariant (hash : String → String) (userName password role : String)
    (userId : Int) (role2 : String) (db : Db) :
    ((createUser hash userName password role db).users =
        db.users ++ [{ id := db.nextUserId, userName := userName,
                       passwordHash := hash password,
                       role := if role = "ADMIN" then "ADMIN" else "TECH", active := true }])
    ∧ (∀ u ∈ (createUser hash userName password role db).users,
        u ∈ db.users ∨ u.role = "TECH" ∨ u.role = "ADMIN")
    ∧ (∀ u ∈ (setUserRole userId role2 db).users,
        u ∈ db.users ∨ u.role = (if role2 = "ADMIN" then "ADMIN" else "TECH"))
    ∧ (∀ u ∈ (setUserRole userId role2 db).users,
        u ∈ db.users ∨ u.role = "TECH" ∨ u.role = "ADMIN") := by
  have h3 : ∀ u ∈ (setUserRole userId role2 db).users,
      u ∈ db.users ∨ u.role = (if role2 = "ADMIN" then "ADMIN" else "TECH") := by
    intro u hu
    simp only [setUserRole, List.mem_map] at hu
    obtain ⟨x, hx, hfx⟩ := hu
    by_cases hid : (x.id == userId) = true
    · rw [if_pos hid] at hfx
      right
      rw [← hfx]
    · rw [if_neg hid] at hfx
      left
      rw [← hfx]
      exact hx
  refine ⟨rfl, ?_, h3, ?_⟩
  · intro u hu
    simp only [createUser, List.mem_append, List.mem_singleton] at hu
    cases hu with
    | inl h => exact Or.inl h
    | inr h =>
      right
      rw [h]
      by_cases hr : role = "ADMIN"
      · right; simp [hr]
      · left; simp [hr]
  · intro u hu
    cases h3 u hu with
    | inl h => exact Or.inl h
    | inr h =>
      right
      by_cases hr : role2 = "ADMIN"
      · right; rw [h, if_pos hr]
      · left; rw [h, if_neg hr]

theorem createGrade_tables (u : AuthUser) (b : GradeBody) (proj : Option Project)
    (db db' : Db) (h : createGrade u b proj db = Except.ok db') :
    db'.users = db.users ∧ db'.presets = db.presets ∧ db'.projects = db.projects ∧
    db'.nextUserId = db.nextUserId ∧ db'.nextPresetId = db.nextPresetId ∧
    db'.nextProjectId = db.nextProjectId ∧ ∃ g, db'.grades = db.grades ++ [g] := by
  cases proj with
  | none => exact absurd h (by simp [createGrade])
  | some p =>
    simp only [createGrade] at h
    split at h
    · split at h
      · simp at h
      · split at h
        · simp at h
        · split at h
          · simp at h
          · split at h
            · simp at h
            · split at h
              · simp at h
              · cases h
                exact ⟨rfl, rfl, rfl, rfl, rfl, rfl, _, rfl⟩
    · simp at h

/-- Claim C5: `createGrade` is atomic — every validation happens before the
single insert, so success appends exactly one grade record and changes no
other table, while any failure leaves the store exactly as it was. -/
theorem createGrade_atomic (u : AuthUser) (b : GradeBody) (proj : Option Project) (db : Db) :
    match createGrade u b proj db with
    | Except.ok db' => db'.users = db.users ∧ db'.presets = db.presets ∧
        db'.projects = db.projects ∧ ∃ g, db'.grades = db.grades ++ [g]
    | Except.error _ => runCreateGrade u b proj db = db := by
  cases h : createGrade u b proj db with
  | ok db' =>
    have ht := createGrade_tables u b proj db db' h
    exact ⟨ht.1, ht.2.1, ht.2.2.1, ht.2.2.2.2.2.2⟩
  | error e => simp [runCreateGrade, h]

/-- Claim C1: when a grade with the same `(projectId, serialNumber)` pair
already exists, `createGrade` fails with the duplicate error, and the failed
call leaves the store — in particular the already-stored first grade —
unchanged. -/
theorem createGrade_duplicate_serial (u : AuthUser) (b : GradeBody) (p : Project) (db : Db)
    (hopen : p.status = "OPEN") (hser : serialOf b ≠ "")
    (hdup : ∃ g ∈ db.grades, g.projectId = p.id ∧ g.serialNumber = serialOf b) :
    createGrade u b (some p) db = Except.error "Serial already exists in this project."
    ∧ runCreateGrade u b (some p) db = db := by
  have hfind : db.grades.find?
      (fun g => g.projectId == p.id && g.serialNumber == serialOf b) ≠ none := by
    intro hnone
    rw [List.find?_eq_none] at hnone
    obtain ⟨g, hg, h1, h2⟩ := hdup
    exact hnone g hg (by simp [h1, h2])
  obtain ⟨g', hg'⟩ := Option.ne_none_iff_exists'.mp hfind
  have hmain : createGrade u b (some p) db =
      Except.error "Serial already exists in this project." := by
    simp [createGrade, hopen, hser, hg']
  exact ⟨hmain, by simp [runCreateGrade, hmain]⟩

theorem createGrade_past_checks (u : AuthUser) (b : GradeBody) (p : Project) (db : Db)
    (hopen : p.status = "OPEN") (hser : serialOf b ≠ "")
    (hnodup : db.grades.find?
      (fun g => g.projectId == p.id && g.serialNumber == serialOf b) = none)
    (hfields : ¬(brandOf b (resolvePreset b db) = "" ∨ modelOf b (resolvePreset b db) = "" ∨
        cpuOf b (resolvePreset b db) = "" ∨ ramOf b (resolvePreset b db) = 0 ∨
        ssdOf b (resolvePreset b db) = 0))
    (hobs : obsOf b (resolvePreset b db) ≠ "") :
    createGrade u b (some p) db =
      (if batteryBad (batteryOf b) then Except.error "Battery Health must be between 0 and 100."
       else Except.ok { db with grades := db.grades ++ [mkGrade u b p db] }) := by
  simp [createGrade, hopen, hser, hnodup, hfields, hobs, mkGrade]

/-- Claim C4: battery health is optional in `createGrade`; when a battery
value is supplied, creation fails for every normalized value outside
`[0,100]`, and for every normalized value inside `[0,100]` creation succeeds
with that value stored verbatim. -/
theorem createGrade_battery_range (u : AuthUser) (b : GradeBody) (p : Project) (db : Db)
    (hopen : p.status = "OPEN") (hser : serialOf b ≠ "")
    (hnodup : db.grades.find?
      (fun g => g.projectId == p.id && g.serialNumber == serialOf b) = none)
    (hfields : ¬(brandOf b (resolvePreset b db) = "" ∨ modelOf b (resolvePreset b db) = "" ∨
        cpuOf b (resolvePreset b db) = "" ∨ ramOf b (resolvePreset b db) = 0 ∨
        ssdOf b (resolvePreset b db) = 0))
    (hobs : obsOf b (resolvePreset b db) ≠ "") :
    (rawBatteryOf b = "" →
      ∃ g, createGrade u b (some p) db = Except.ok { db with grades := db.grades ++ [g] }
        ∧ g.batteryHealthPercent = none)
    ∧ (∀ bv : Int, rawBatteryOf b ≠ "" →
        normalizeInt (JSVal.str (rawBatteryOf b)) (some (-1)) = some bv →
        (((bv < 0 ∨ 100 < bv) →
            createGrade u b (some p) db =
              Except.error "Battery Health must be between 0 and 100.")
         ∧ (0 ≤ bv → bv ≤ 100 →
            ∃ g, createGrade u b (some p) db = Except.ok { db with grades := db.grades ++ [g] }
              ∧ g.batteryHealthPercent = some bv))) := by
  have hreach := createGrade_past_checks u b p db hopen hser hnodup hfields hobs
  constructor
  · intro hraw
    have hb : batteryOf b = none := by simp [batteryOf, hraw]
    refine ⟨mkGrade u b p db, ?_, ?_⟩
    · rw [hreach, hb]
      rfl
    · simp [mkGrade, hb]
  · intro bv hne hbv
    have hb : batteryOf b = some bv := by
      simp [batteryOf, hne, hbv]
    constructor
    · intro hout
      have hbad : batteryBad (batteryOf b) = true := by
        rw [hb]
        simp [batteryBad]
        omega
      rw [hreach, if_pos hbad]
    · intro h0 h100
      have hgood : batteryBad (batteryOf b) = false := by
        rw [hb]
        simp [batteryBad]
        omega
      refine ⟨mkGrade u b p db, ?_, ?_⟩
      · rw [hreach, if_neg (by rw [hgood]; exact Bool.false_ne_true)]
      · simp [mkGrade, hb]

theorem strField_cases (raw preB : String) :
    jsTrim (strOr (jsTrim raw) preB) =
      if jsTrim raw = "" then jsTrim preB else jsTrim raw := by
  by_cases h : jsTrim raw = ""
  · simp [h, strOr_of_empty]
  · rw [strOr_of_ne _ _ h, jsTrim_idem, if_neg h]

theorem intField_cases (v : Option String) (d : Int) :
    (normalizeInt (jsOfOpt v) (some d)).getD 0 =
      (parseIntJS (jsToString (jsOfOpt v))).getD d := by
  unfold normalizeInt
  cases h : parseIntJS (jsToString (jsOfOpt v)) <;> simp

/-- Claim C2 (amended): in `createGrade`, for brand, model and CPU the stored
value is the trimmed submitted value when it is non-empty after trimming and
otherwise the trimmed resolved preset default; for RAM and SSD the stored
value is the integer parsed from the submitted value whenever parsing
succeeds — including a parsed `0` — and the preset default is used only when
parsing fails; creation fails with the required-fields error whenever, after
this resolution, brand, model or CPU is empty or RAM or SSD is `0`. -/
theorem createGrade_field_resolution (u : AuthUser) (b : GradeBody) (p : Project) (db : Db)
    (hopen : p.status = "OPEN") (hser : serialOf b ≠ "")
    (hnodup : db.grades.find?
      (fun g => g.projectId == p.id && g.serialNumber == serialOf b) = none) :
    (brandOf b (resolvePreset b db) =
      if jsTrim (b.brand.getD "") = "" then jsTrim (presetBrandD (resolvePreset b db))
      else jsTrim (b.brand.getD ""))
    ∧ (modelOf b (resolvePreset b db) =
      if jsTrim (b.model.getD "") = "" then jsTrim (presetModelD (resolvePreset b db))
      else jsTrim (b.model.getD ""))
    ∧ (cpuOf b (resolvePreset b db) =
      if jsTrim (b.cpu.getD "") = "" then jsTrim (presetCpuD (resolvePreset b db))
      else jsTrim (b.cpu.getD ""))
    ∧ (ramOf b (resolvePreset b db) =
      (parseIntJS (jsToString (jsOfOpt b.ramGb))).getD (presetRamD (resolvePreset b db)))
    ∧ (ssdOf b (resolvePreset b db) =
      (parseIntJS (jsToString (jsOfOpt b.ssdGb))).getD (presetSsdD (resolvePreset b db)))
    ∧ ((brandOf b (resolvePreset b db) = "" ∨ modelOf b (resolvePreset b db) = "" ∨
        cpuOf b (resolvePreset b db) = "" ∨ ramOf b (resolvePreset b db) = 0 ∨
        ssdOf b (resolvePreset b db) = 0) →
        createGrade u b (some p) db = Except.error "Brand, model, CPU, RAM and SSD are required.")
    ∧ (∀ db', createGrade u b (some p) db = Except.ok db' →
        ∃ g, db'.grades = db.grades ++ [g]
          ∧ g.brand = brandOf b (resolvePreset b db)
          ∧ g.model = modelOf b (resolvePreset b db)
          ∧ g.cpu = cpuOf b (resolvePreset b db)
          ∧ g.ramGb = ramOf b (resolvePreset b db)
          ∧ g.ssdGb = ssdOf b (resolvePreset b db)) := by
  refine ⟨strField_cases _ _, strField_cases _ _, strField_cases _ _,
    intField_cases _ _, intField_cases _ _, ?_, ?_⟩
  · intro hfail
    simp [createGrade, hopen, hser, hnodup, hfail]
  · intro db' h
    simp only [createGrade, hopen, hser, hnodup] at h
    simp at h
    split at h
    · simp at h
    · split at h
      · simp at h
      · split at h
        · simp at h
        · injection h with h2
          subst h2
          exact ⟨_, rfl, rfl, rfl, rfl, rfl, rfl⟩

/-- Claim C3 (amended): in `createGrade`, a submitted preset id is resolved
only if that preset is currently active; an inactive preset id contributes no
default values, and in that case the stored grade's `presetId` is `null` —
the inactive preset's id is never stored by `createGrade`. -/
theorem createGrade_inactive_preset_no_defaults (u : AuthUser) (b : GradeBody) (p : Project)
    (db : Db) (n : Int)
    (hpid : normalizeInt (jsOfOpt b.presetId) none = some n) (hn : n ≠ 0)
    (hinact : ∀ pr ∈ db.presets, pr.id = n → pr.active = false) :
    (∀ (b' : GradeBody) (db2 : Db) (pr : ModelPreset),
        resolvePreset b' db2 = some pr → pr.active = true)
    ∧ resolvePreset b db = none
    ∧ (∀ db', createGrade u b (some p) db = Except.ok db' →
        ∃ g, db'.grades = db.grades ++ [g] ∧ g.presetId = none
          ∧ g.brand = jsTrim (b.brand.getD "") ∧ g.model = jsTrim (b.model.getD "")
          ∧ g.cpu = jsTrim (b.cpu.getD "")
          ∧ g.ramGb = (parseIntJS (jsToString (jsOfOpt b.ramGb))).getD 0
          ∧ g.ssdGb = (parseIntJS (jsToString (jsOfOpt b.ssdGb))).getD 0
          ∧ g.observations = jsTrim (b.observations.getD "")) := by
  have hactive : ∀ (b' : GradeBody) (db2 : Db) (pr : ModelPreset),
      resolvePreset b' db2 = some pr → pr.active = true := by
    intro b' db2 pr h
    unfold resolvePreset at h
    split at h
    · split at h
      · have := List.find?_some h
        simp at this
        exact this.2
      · simp at h
    · simp at h
  have hres : resolvePreset b db = none := by
    unfold resolvePreset
    simp only [hpid]
    rw [if_pos hn, List.find?_eq_none]
    intro pr hpr
    by_cases hid : pr.id = n
    · simp [hid, hinact pr hpr hid]
    · simp [hid]
  have hbrand : brandOf b none = jsTrim (b.brand.getD "") := by
    unfold brandOf presetBrandD
    rw [strOr_empty_right, jsTrim_idem]
  have hmodel : modelOf b none = jsTrim (b.model.getD "") := by
    unfold modelOf presetModelD
    rw [strOr_empty_right, jsTrim_idem]
  have hcpu : cpuOf b none = jsTrim (b.cpu.getD "") := by
    unfold cpuOf presetCpuD
    rw [strOr_empty_right, jsTrim_idem]
  have hobs : obsOf b none = jsTrim (b.observations.getD "") := by
    unfold obsOf presetObsD
    rw [strOr_empty_right, jsTrim_idem]
  have hram : ramOf b none = (parseIntJS (jsToString (jsOfOpt b.ramGb))).getD 0 := by
    unfold ramOf presetRamD normalizeInt
    cases hx : parseIntJS (jsToString (jsOfOpt b.ramGb)) <;> simp [hx]
  have hssd : ssdOf b none = (parseIntJS (jsToString (jsOfOpt b.ssdGb))).getD 0 := by
    unfold ssdOf presetSsdD normalizeInt
    cases hx : parseIntJS (jsToString (jsOfOpt b.ssdGb)) <;> simp [hx]
  refine ⟨hactive, hres, ?_⟩
  intro db' h
  simp only [createGrade, hres] at h
  split at h
  · split at h
    · simp at h
    · split at h
      · simp at h
      · split at h
        · simp at h
        · split at h
          · simp at h
          · split at h
            · simp at h
            · injection h with h2
              subst h2
              exact ⟨_, rfl, by simp, hbrand, hmodel, hcpu, hram, hssd, hobs⟩
  · simp at h

theorem find?_append_some {α : Type} (f : α → Bool) (l₁ l₂ : List α) (x : α)
    (h : l₁.find? f = some x) : (l₁ ++ l₂).find? f = some x := by
  rw [List.find?_append, h]
  rfl

theorem find?_update_map (l : List Project) (id id2 : Int) (s : String) :
    (l.map (fun q => if q.id == id2 then { q with status := s } else q)).find?
        (fun q => q.id == id)
      = (l.find? (fun q => q.id == id)).map
          (fun q => if q.id == id2 then { q with status := s } else q) := by
  rw [List.find?_map]
  have hp : ((fun q : Project => q.id == id) ∘
      (fun q : Project => if q.id == id2 then { q with status := s } else q))
      = (fun q : Project => q.id == id) := by
    funext q
    by_cases h : (q.id == id2) = true <;> simp [Function.comp, h]
  rw [hp]

theorem createPreset_ok_projects (u : AuthUser) (body : PresetBody) (db db' : Db)
    (h : createPreset u body db = Except.ok db') : db'.projects = db.projects := by
  simp only [createPreset] at h
  repeat' split at h
  all_goals first
    | (injection h with h2; subst h2; rfl)
    | simp at h

theorem createPresetFromUnit_ok_projects (u : AuthUser) (body : UnitBody) (db db' : Db)
    (pr : ModelPreset) (h : createPresetFromUnit u body db = Except.ok (db', pr)) :
    db'.projects = db.projects := by
  simp only [createPresetFromUnit] at h
  repeat' split at h
  all_goals first
    | (injection h with h2
       rw [Prod.mk.injEq] at h2
       rw [← h2.1])
    | simp at h

theorem createProject_ok_projects (u : AuthUser) (name dt : Option String) (db db' : Db)
    (h : createProject u name dt db = Except.ok db') :
    ∃ np, db'.projects = db.projects ++ [np] := by
  simp only [createProject] at h
  repeat' split at h
  all_goals first
    | (injection h with h2; subst h2; exact ⟨_, rfl⟩)
    | simp at h

theorem setProjectStatus_find (id2 pid : Int) (s : String) (db : Db) (q : Project)
    (h : getProjectById pid db = some q) :
    getProjectById pid (setProjectStatus id2 s db) =
      some (if q.id == id2 then { q with status := if s = "CLOSED" then "CLOSED" else "OPEN" }
            else q) := by
  unfold getProjectById at h
  simp only [setProjectStatus, getProjectById]
  rw [find?_update_map, h]
  rfl

theorem createGrade_closed (u : AuthUser) (b : GradeBody) (q : Project) (db : Db)
    (hc : q.status = "CLOSED") :
    createGrade u b (some q) db = Except.error "Selected project is closed." := by
  simp only [createGrade, hc]
  rw [if_neg (by decide : ¬("CLOSED" : String) = "OPEN")]

theorem closedPreserved (pid : Int) (a : Action) (db : Db) (q : Project)
    (h : getProjectById pid db = some q) (hc : q.status = "CLOSED") :
    ∃ r, getProjectById pid (applyAction a db) = some r ∧ r.status = "CLOSED" := by
  cases a with
  | addUser hash un pw role =>
    refine ⟨q, ?_, hc⟩
    show getProjectById pid
        (if jsTrim un = "" ∨ pw = "" then db else createUser hash (jsTrim un) pw role db) = some q
    split
    · exact h
    · exact h
  | enableUser id act => exact ⟨q, h, hc⟩
  | changeRole id role => exact ⟨q, h, hc⟩
  | deactivatePreset id => exact ⟨q, h, hc⟩
  | activatePreset id act => exact ⟨q, h, hc⟩
  | addPreset u2 body =>
    refine ⟨q, ?_, hc⟩
    show getProjectById pid (exceptD (createPreset u2 body db) db) = some q
    cases hr : createPreset u2 body db with
    | error e => simp only [exceptD, hr]; exact h
    | ok db2 =>
      have hp : db2.projects = db.projects := createPreset_ok_projects u2 body db db2 hr
      simp only [exceptD, hr]
      unfold getProjectById
      rw [hp]
      exact h
  | addPresetFromUnit u2 body =>
    refine ⟨q, ?_, hc⟩
    show getProjectById pid
        (match createPresetFromUnit u2 body db with
         | Except.ok (db', _) => db'
         | Except.error _ => db) = some q
    cases hr : createPresetFromUnit u2 body db with
    | error e => simp only [hr]; exact h
    | ok pair =>
      have hp : pair.1.projects = db.projects :=
        createPresetFromUnit_ok_projects u2 body db pair.1 pair.2 (by rw [hr])
      simp only [hr]
      unfold getProjectById
      rw [hp]
      exact h
  | addProject u2 name dt =>
    refine ⟨q, ?_, hc⟩
    show getProjectById pid (exceptD (createProject u2 name dt db) db) = some q
    cases hr : createProject u2 name dt db with
    | error e => simp only [exceptD, hr]; exact h
    | ok db2 =>
      obtain ⟨np, hnp⟩ := createProject_ok_projects u2 name dt db db2 hr
      simp only [exceptD, hr]
      unfold getProjectById
      rw [hnp]
      exact find?_append_some _ _ _ _ h
  | closeProject id2 =>
    refine ⟨if q.id == id2
            then { q with status := if ("CLOSED" : String) = "CLOSED" then "CLOSED" else "OPEN" }
            else q, ?_, ?_⟩
    · exact setProjectStatus_find id2 pid "CLOSED" db q h
    · by_cases hq : (q.id == id2) = true <;> simp [hq, hc]
  | addGrade u2 body cur =>
    cases cur with
    | none => exact ⟨q, h, hc⟩
    | some cpid =>
      show ∃ r, getProjectById pid
          (match getProjectById cpid db with
           | none => db
           | some project => runCreateGrade u2 body (some project) db) = some r
          ∧ r.status = "CLOSED"
      cases hg : getProjectById cpid db with
      | none => simp only [hg]; exact ⟨q, h, hc⟩
      | some project =>
        simp only [hg]
        cases hr : createGrade u2 body (some project) db with
        | error e => simp only [runCreateGrade, hr]; exact ⟨q, h, hc⟩
        | ok db2 =>
          have hp : db2.projects = db.projects :=
            (createGrade_tables u2 body (some project) db db2 hr).2.2.1
          refine ⟨q, ?_, hc⟩
          simp only [runCreateGrade, hr]
          unfold getProjectById
          rw [hp]
          exact h

theorem closedPreservedMany (pid : Int) (acts : List Action) :
    ∀ (db : Db) (q : Project), getProjectById pid db = some q → q.status = "CLOSED" →
      ∃ r, getProjectById pid (applyActions acts db) = some r ∧ r.status = "CLOSED" := by
  induction acts with
  | nil => intro db q h hc; exact ⟨q, h, hc⟩
  | cons a rest ih =>
    intro db q h hc
    obtain ⟨r, hr, hrc⟩ := closedPreserved pid a db q h hc
    exact ih (applyAction a db) r hr hrc

/-- Claim C6: after the close-project route sets a project's status to
`CLOSED`, the project stays `CLOSED` under every subsequent sequence of
exposed store-mutating operations — no route can transition it back to
`OPEN` — and every later `createGrade` call against that project fails with
the closed-project error. -/
theorem closed_project_stays_closed (db : Db) (id : Int) (acts : List Action)
    (u : AuthUser) (b : GradeBody) (p0 : Project)
    (hex : getProjectById id db = some p0) :
    ∀ q, getProjectById id (applyActions acts (applyAction (Action.closeProject id) db)) =
        some q →
      q.status = "CLOSED" ∧
      createGrade u b (some q) (applyActions acts (applyAction (Action.closeProject id) db)) =
        Except.error "Selected project is closed." := by
  have hbase : ∃ r, getProjectById id (applyAction (Action.closeProject id) db) = some r
      ∧ r.status = "CLOSED" := by
    refine ⟨if p0.id == id
            then { p0 with status := if ("CLOSED" : String) = "CLOSED" then "CLOSED" else "OPEN" }
            else p0, ?_, ?_⟩
    · exact setProjectStatus_find id id "CLOSED" db p0 hex
    · have hid := List.find?_some
        (show db.projects.find? (fun x => x.id == id) = some p0 from hex)
      simp only [] at hid
      simp [hid]
  obtain ⟨r, hr, hrc⟩ := hbase
  obtain ⟨r2, hr2, hrc2⟩ :=
    closedPreservedMany id acts (applyAction (Action.closeProject id) db) r hr hrc
  intro q hq
  rw [hr2] at hq
  injection hq with hq2
  subst hq2
  exact ⟨hrc2, createGrade_closed u b _ _ hrc2⟩

/-- Witness for claim C1 at a concrete store already holding `(1, "SN1")`. -/
theorem createGrade_duplicate_serial_w :
    createGrade c1User c1Body (some c1Project) c1Db =
      Except.error "Serial already exists in this project."
    ∧ runCreateGrade c1User c1Body (some c1Project) c1Db = c1Db :=
  createGrade_duplicate_serial c1User c1Body c1Project c1Db rfl (by decide)
    ⟨c1Grade, by decide, by decide, by decide⟩

/-- Counterexample for claim C2 as stated: the submitted RAM value `"0"` is
not replaced by the resolved preset's non-zero default `8`; `createGrade`
rejects instead of falling back. -/
theorem createGrade_ram_zero_cex :
    c2Body.ramGb = some "0"
    ∧ (resolvePreset c2Body c2Db).map (fun pr => pr.defaultRamGb) = some 8
    ∧ createGrade c2User c2Body (some c2Project) c2Db =
        Except.error "Brand, model, CPU, RAM and SSD are required." :=
  ⟨rfl, rfl, rfl⟩

/-- Witness for amended claim C2: with no preset and no submitted brand the
required-fields rejection fires. -/
theorem createGrade_field_resolution_w :
    createGrade c2User c2wBody (some c2wProject) c2wDb =
      Except.error "Brand, model, CPU, RAM and SSD are required." :=
  (createGrade_field_resolution c2User c2wBody c2wProject c2wDb rfl (by decide)
      rfl).2.2.2.2.2.1 (Or.inl (by decide))

/-- Counterexample for claim C3 as stated: submitting the id `7` of an
inactive preset stores `presetId = null`, never the inactive preset's id. -/
theorem createGrade_inactive_preset_cex :
    c3Db.presets.map (fun pr => (pr.id, pr.active)) = [(7, false)]
    ∧ c3Body.presetId = some "7"
    ∧ (createGrade c3User c3Body (some c3Project) c3Db).toOption.map
        (fun d => d.grades.map (fun g => g.presetId)) = some [none] :=
  ⟨rfl, rfl, rfl⟩

/-- Witness for amended claim C3 at a concrete inactive preset. -/
theorem createGrade_inactive_preset_no_defaults_w :
    resolvePreset c3Body c3Db = none :=
  (createGrade_inactive_preset_no_defaults c3User c3Body c3Project c3Db 7 (by decide)
      (by decide) (by decide)).2.1

/-- Witness for claim C4: a supplied battery value `"85"` is stored verbatim. -/
theorem createGrade_battery_range_w :
    ∃ g, createGrade c4User c4Body (some c4Project) c4Db =
        Except.ok { c4Db with grades := c4Db.grades ++ [g] }
      ∧ g.batteryHealthPercent = some 85 :=
  ((createGrade_battery_range c4User c4Body c4Project c4Db rfl (by decide) rfl (by decide)
      (by decide)).2 85 (by decide) (by decide)).2 (by decide) (by decide)

/-- Witness for claim C6: closing project 1 leaves it `CLOSED` and a later
`createGrade` against it fails. -/
theorem closed_project_stays_closed_w :
    c6Closed.status = "CLOSED" ∧
    createGrade c6User c6Body (some c6Closed)
        (applyActions [] (applyAction (Action.closeProject 1) c6Db)) =
      Except.error "Selected project is closed." :=
  closed_project_stays_closed c6Db 1 [] c6User c6Body c6Project rfl c6Closed (by decide)

/-- Witness for claim C8: a successful login returns exactly id, username and
role. -/
theorem authenticate_spec_w :
    authenticate c8cmp "alice" "pw1" c8Users =
      some { id := 1, userName := "alice", role := "ADMIN" } :=
  ((authenticate_spec c8cmp "alice" "pw1" c8Users).2 c8User rfl).2.2 rfl (by decide)

/-- Witness for claim C10: a role change with a non-ADMIN string stores TECH. -/
theorem user_role_invariant_w :
    c10U ∈ c10Db.users ∨ c10U.role = (if ("boss" : String) = "ADMIN" then "ADMIN" else "TECH") :=
  (user_role_invariant (fun s => s) "x" "y" "z" 1 "boss" c10Db).2.2.1 c10U (by decide)

end LGS
